import Mathlib

/-!
Verification of the BubbleMap structured-extraction and graph-normalization
pipeline (src/app.py): a shallow embedding of robust_json_extract, the
per-mode map extractors, concept_map_to_tree, flatten_tree_to_nodes_links,
the rendered group assignment of create_multilevel_mindmap_html, the title
helper get_pdf_title_from_content, and the session-state document cache of
the file upload block.

Conventions of the embedding:
* Python values parsed from JSON are modelled by the inductive type Json.
  JSON numbers are restricted to integers (every input exercised in this
  development is integer-only); \uXXXX string escapes and the NaN/Infinity
  extensions of the Python decoder are not modelled (they parse to none)
  and are not exercised.
* json.loads is modelled by json_loads_core, a strict RFC-8259 parser with
  a fuel argument that strictly exceeds any reachable recursion depth.
* The two regular expressions of robust_json_extract are first-open to
  last-close slices; re.search with these patterns matches iff the first
  opening bracket is at least two positions before the last closing
  bracket, and then the greedy match runs from that first opening bracket
  to the last closing bracket of the whole string.
* A raised Python exception is modelled as Except.error carrying a PyErr;
  Except.ok is a returned value.
* The OpenAI client (client.responses.create) is an external collaborator
  and is passed as a function from the prompt to Except LLMErr String;
  Except.error models the client raising.
* hashlib.md5 and the PDF text extraction are external; the cache model
  takes them as parameters.
-/

namespace BubbleMap

/-- JSON values as produced by the Python json module, with numbers
restricted to integers. Object members keep insertion order. -/
inductive Json where
  | null : Json
  | bool (b : Bool) : Json
  | num (n : Int) : Json
  | str (s : String) : Json
  | arr (xs : List Json) : Json
  | obj (kvs : List (String × Json)) : Json

/-- The opening curly brace character, written by code. -/
def openBrace : Char := '\x7b'

/-- The closing curly brace character, written by code. -/
def closeBrace : Char := '\x7d'

/-- JSON inter-token whitespace, as accepted by the Python decoder. -/
def jsonWs (c : Char) : Bool := c = ' ' || c = '\t' || c = '\n' || c = '\r'

/-- Drop leading JSON whitespace. -/
def skipWs (s : List Char) : List Char := s.dropWhile jsonWs

/-- Translate a JSON string escape character (\uXXXX is not modelled). -/
def escChar (c : Char) : Option Char :=
  if c = '"' then some '"'
  else if c = '\\' then some '\\'
  else if c = '/' then some '/'
  else if c = 'b' then some '\x08'
  else if c = 'f' then some '\x0c'
  else if c = 'n' then some '\n'
  else if c = 'r' then some '\r'
  else if c = 't' then some '\t'
  else none

/-- Parse the body of a JSON string literal, after the opening quote.
Raw control characters are rejected, as in the strict Python decoder. -/
def parseStringBody : List Char → List Char → Option (List Char × List Char)
  | [], _ => none
  | c :: rest, acc =>
    if c = '"' then some (acc.reverse, rest)
    else if c = '\\' then
      match rest with
      | [] => none
      | e :: rest2 =>
        match escChar e with
        | some ce => parseStringBody rest2 (ce :: acc)
        | none => none
    else if c.toNat < 32 then none
    else parseStringBody rest (c :: acc)

/-- Numeric value of a digit run. -/
def digitsVal (ds : List Char) : Nat := ds.foldl (fun a c => a * 10 + (c.toNat - 48)) 0

/-- Parse an unsigned JSON integer: 0, or a nonzero digit followed by
digits. A leading zero never absorbs further digits, as in JSON. -/
def parseNumCore (s : List Char) : Option (Nat × List Char) :=
  match s with
  | [] => none
  | c :: rest =>
    if c = '0' then some (0, rest)
    else if c.isDigit then
      some (digitsVal (c :: rest.takeWhile Char.isDigit), rest.dropWhile Char.isDigit)
    else none

/-- Parse a JSON number (integer grammar; fraction and exponent parts are
outside the model and make the overall parse fail as trailing junk). -/
def parseNumber (s : List Char) : Option (Json × List Char) :=
  match s with
  | '-' :: rest => (parseNumCore rest).map (fun p => (Json.num (-(p.1 : Int)), p.2))
  | _ => (parseNumCore s).map (fun p => (Json.num (p.1 : Int), p.2))

mutual

/-- Parse one JSON value beginning at the head of the input (leading
whitespace already skipped). Returns the value and the unconsumed rest. -/
def parseValue : Nat → List Char → Option (Json × List Char)
  | 0, _ => none
  | _ + 1, [] => none
  | fuel + 1, c :: rest =>
    if c = '"' then (parseStringBody rest []).map (fun p => (Json.str (String.mk p.1), p.2))
    else if c = openBrace then parseObjRest fuel (skipWs rest)
    else if c = '[' then parseArrRest fuel (skipWs rest)
    else
      match c :: rest with
      | 'n' :: 'u' :: 'l' :: 'l' :: r => some (Json.null, r)
      | 't' :: 'r' :: 'u' :: 'e' :: r => some (Json.bool true, r)
      | 'f' :: 'a' :: 'l' :: 's' :: 'e' :: r => some (Json.bool false, r)
      | s => parseNumber s

/-- Parse the remainder of an object, after the opening brace and
whitespace. -/
def parseObjRest : Nat → List Char → Option (Json × List Char)
  | 0, _ => none
  | fuel + 1, s =>
    match s with
    | c :: rest =>
      if c = closeBrace then some (Json.obj [], rest)
      else parseMembers fuel (c :: rest) []
    | [] => none

/-- Parse the members of a nonempty object; the accumulator holds the
members seen so far, in reverse. -/
def parseMembers : Nat → List Char → List (String × Json) → Option (Json × List Char)
  | 0, _, _ => none
  | fuel + 1, s, acc =>
    match s with
    | '"' :: rest =>
      match parseStringBody rest [] with
      | none => none
      | some (k, r1) =>
        match skipWs r1 with
        | ':' :: r2 =>
          match parseValue fuel (skipWs r2) with
          | none => none
          | some (v, r3) =>
            match skipWs r3 with
            | ',' :: r4 => parseMembers fuel (skipWs r4) ((String.mk k, v) :: acc)
            | c :: r4 =>
              if c = closeBrace then some (Json.obj (((String.mk k, v) :: acc).reverse), r4)
              else none
            | [] => none
        | _ => none
    | _ => none

/-- Parse the remainder of an array, after the opening bracket and
whitespace. -/
def parseArrRest : Nat → List Char → Option (Json × List Char)
  | 0, _ => none
  | fuel + 1, s =>
    match s with
    | ']' :: rest => some (Json.arr [], rest)
    | _ => parseElems fuel s []

/-- Parse the elements of a nonempty array; the accumulator holds the
elements seen so far, in reverse. -/
def parseElems : Nat → List Char → List Json → Option (Json × List Char)
  | 0, _, _ => none
  | fuel + 1, s, acc =>
    match parseValue fuel s with
    | none => none
    | some (v, r1) =>
      match skipWs r1 with
      | ',' :: r2 => parseElems fuel (skipWs r2) (v :: acc)
      | ']' :: r2 => some (Json.arr ((v :: acc).reverse), r2)
      | _ => none

end

/-- Model of json.loads on a character list: skip surrounding whitespace,
parse exactly one value, reject trailing junk. The fuel strictly exceeds
any reachable recursion depth for the given input length. -/
def json_loads_core (s : List Char) : Option Json :=
  match parseValue (4 * s.length + 8) (skipWs s) with
  | some (v, rest) => if (skipWs rest).isEmpty then some v else none
  | none => none

/-- Model of json.loads on a Python string. -/
def json_loads (s : String) : Option Json := json_loads_core s.data

/-- Index of the first occurrence of a character, if any. -/
def firstIdxOf (c : Char) : List Char → Option Nat
  | [] => none
  | x :: xs => if x = c then some 0 else (firstIdxOf c xs).map (· + 1)

/-- Index of the last occurrence of a character, if any. -/
def lastIdxOf (c : Char) (l : List Char) : Option Nat :=
  (firstIdxOf c l.reverse).map (fun i => l.length - 1 - i)

/-- Model of re.search with the greedy first-open/last-close pattern used
by robust_json_extract for curly braces (app.py line 28): the match runs
from the first opening brace to the last closing brace and needs at least
one character in between. -/
def braceSlice (s : List Char) : Option (List Char) :=
  match firstIdxOf openBrace s, lastIdxOf closeBrace s with
  | some i, some j => if i + 2 ≤ j then some ((s.take (j + 1)).drop i) else none
  | _, _ => none

/-- The same slice for square brackets (app.py line 30). -/
def bracketSlice (s : List Char) : Option (List Char) :=
  match firstIdxOf '[' s, lastIdxOf ']' s with
  | some i, some j => if i + 2 ≤ j then some ((s.take (j + 1)).drop i) else none
  | _, _ => none

/-- The regex match robust_json_extract settles on (app.py lines 28-30):
the brace slice when it exists, else — only when want_list — the bracket
slice. -/
def slice_candidate (raw : List Char) (want_list : Bool) : Option (List Char) :=
  match braceSlice raw with
  | some g => some g
  | none => if want_list then bracketSlice raw else none

/-- Model of robust_json_extract (app.py lines 27-39): try to parse the
regex slice if one matched; on failure or no match fall through to a
strict parse of the whole input; on its failure return None. -/
def robust_json_extract_core (raw : List Char) (want_list : Bool) : Option Json :=
  match slice_candidate raw want_list with
  | some g =>
    match json_loads_core g with
    | some v => some v
    | none => json_loads_core raw
  | none => json_loads_core raw

/-- robust_json_extract on a Python string. -/
def robust_json_extract (raw : String) (want_list : Bool) : Option Json :=
  robust_json_extract_core raw.data want_list

/-- Python truthiness of a JSON-derived value, as tested by
`if not result` and `if parent_name`. -/
def py_truthy : Json → Bool
  | .null => false
  | .bool b => b
  | .num n => n != 0
  | .str s => !s.isEmpty
  | .arr xs => !xs.isEmpty
  | .obj kvs => !kvs.isEmpty

/-- Failure of the generative-model collaborator (the OpenAI client call
raising). -/
inductive LLMErr where
  | timeout : LLMErr
  | transport : LLMErr
  | rateLimit : LLMErr
  | other (msg : String) : LLMErr

/-- A raised Python exception, as propagated out of the functions under
study. -/
inductive PyErr where
  | typeError (msg : String) : PyErr
  | keyError (key : String) : PyErr
  | uncaught (e : LLMErr) : PyErr

/-- Last-wins association lookup: the dict produced by the Python json
module keeps the last value for a repeated key. -/
def lookupLast (kvs : List (String × Json)) (k : String) : Option Json :=
  kvs.foldl (fun acc p => if p.1 = k then some p.2 else acc) none

/-- Python `item[k]` for a string key: KeyError when the key is absent,
TypeError when the value is not a dict. -/
def pyGetItem (v : Json) (k : String) : Except PyErr Json :=
  match v with
  | .obj kvs =>
    match lookupLast kvs k with
    | some x => Except.ok x
    | none => Except.error (PyErr.keyError k)
  | _ => Except.error (PyErr.typeError ("value is not subscriptable by str"))

/-- Python `v[:k]`: lists and strings are sliced; a dict raises TypeError
(a slice is unhashable); other values are not subscriptable. -/
def pySlice (v : Json) (k : Nat) : Except PyErr Json :=
  match v with
  | .arr xs => Except.ok (Json.arr (xs.take k))
  | .str s => Except.ok (Json.str (String.mk (s.data.take k)))
  | .obj _ => Except.error (PyErr.typeError ("unhashable type: slice"))
  | _ => Except.error (PyErr.typeError ("value is not subscriptable"))

/-- MAX_TERMS (app.py line 15). -/
def MAX_TERMS : Nat := 16

/-- Prompt template of the concept map (app.py lines 42-55). -/
def prompt_concept_map (full_text : String) (max_terms : Nat) : String :=
  "Extract up to " ++ toString max_terms ++ " of the most important concepts, technical terms, or keywords from the following document, prioritizing those that are central to its arguments, themes, or subject matter. " ++
  "For each term, provide a clear and concise one-sentence explanation suitable as a tooltip for a mindmap node.\n\n" ++
  "Return as a JSON array:\n" ++
  "[\n" ++
  "  \x7b\"term\": \"Concept 1\", \"tooltip\": \"Short definition or explanation.\"\x7d,\n" ++
  "  ...\n" ++
  "]\n" ++
  "Only return valid JSON; do not include commentary, explanation, or text before or after the JSON.\n\n" ++
  "Document:\n" ++
  "---\n" ++
  full_text

/-- Prompt template of the structure map (app.py lines 57-84). -/
def prompt_structure_map (full_text : String) : String :=
  "Summarize the structure of this document as a hierarchical mindmap. Your mindmap should have:\n" ++
  "- 3 to 6 major topics at the first level (root children).\n" ++
  "- 2 to 4 subtopics or key points for each topic (second level).\n" ++
  "- (Optional) A third level for important supporting details, but only if clearly warranted by the document.\n" ++
  "Each node must have a \"name\" (the topic/idea) and a \"tooltip\" (a brief description or summary of its meaning or role in the document).\n\n" ++
  "Return as valid JSON in the following format:\n" ++
  "\x7b\n" ++
  "  \"name\": \"Short title of the document\",\n" ++
  "  \"tooltip\": \"Concise summary of the overall subject\",\n" ++
  "  \"children\": [\n" ++
  "    \x7b\n" ++
  "      \"name\": \"Main Topic 1\",\n" ++
  "      \"tooltip\": \"...\",\n" ++
  "      \"children\": [\n" ++
  "        \x7b\"name\": \"Subtopic A\", \"tooltip\": \"...\"\x7d,\n" ++
  "        \x7b\"name\": \"Subtopic B\", \"tooltip\": \"...\"\x7d\n" ++
  "      ]\n" ++
  "    \x7d,\n" ++
  "    ...\n" ++
  "  ]\n" ++
  "\x7d\n\n" ++
  "Only output the JSON. Do not include any commentary or additional explanation.\n\n" ++
  "Document:\n" ++
  "---\n" ++
  full_text

/-- Prompt template of the argument map (app.py lines 86-97). -/
def prompt_argument_map (full_text : String) : String :=
  "Extract the main argument structure from the following document as a hierarchical mindmap. For each node, include:\n" ++
  "- \"name\": A very short label (max 4–5 words).\n" ++
  "- \"type\": One of: \"Thesis\", \"Supporting Argument\", \"Evidence\", \"Counterargument\".\n" ++
  "- \"tooltip\": A brief summary or example (1–2 sentences).\n\n" ++
  "Use \"Thesis\" for the root claim, \"Supporting Argument\" for reasons/sub-reasons, \"Evidence\" for supporting facts/examples, and \"Counterargument\" for objections or opposing points.\n\n" ++
  "Return valid JSON only, preserving the hierarchy.\n\n" ++
  "Document:\n" ++
  "---\n" ++
  full_text

/-- Model of get_concept_map (app.py lines 100-107). The collaborator llm
maps the prompt to its raw completion, or to an error when the client
raises; the client call is not wrapped in try/except, so a client error
propagates (Except.error (uncaught e)). On an untruthy or failed parse
the empty list is returned; otherwise `result[:max_terms]`, which raises
TypeError when the parse produced a dict. -/
def get_concept_map (llm : String → Except LLMErr String) (full_text : String)
    (max_terms : Nat) : Except PyErr Json :=
  match llm (prompt_concept_map full_text max_terms) with
  | Except.error e => Except.error (PyErr.uncaught e)
  | Except.ok glossary_json =>
    match robust_json_extract glossary_json true with
    | none => Except.ok (Json.arr [])
    | some result =>
      if py_truthy result then pySlice result max_terms else Except.ok (Json.arr [])

/-- Model of get_structure_map (app.py lines 109-116): on falsy or failed
parse the empty dict is returned; client errors propagate. -/
def get_structure_map (llm : String → Except LLMErr String) (full_text : String) :
    Except PyErr Json :=
  match llm (prompt_structure_map full_text) with
  | Except.error e => Except.error (PyErr.uncaught e)
  | Except.ok raw =>
    match robust_json_extract raw false with
    | none => Except.ok (Json.obj [])
    | some result =>
      if py_truthy result then Except.ok result else Except.ok (Json.obj [])

/-- Model of get_argument_map (app.py lines 118-125), identical in shape
to get_structure_map. -/
def get_argument_map (llm : String → Except LLMErr String) (full_text : String) :
    Except PyErr Json :=
  match llm (prompt_argument_map full_text) with
  | Except.error e => Except.error (PyErr.uncaught e)
  | Except.ok raw =>
    match robust_json_extract raw false with
    | none => Except.ok (Json.obj [])
    | some result =>
      if py_truthy result then Except.ok result else Except.ok (Json.obj [])

/-- Python default whitespace, as used by str.split() and str.strip(). -/
def isPyWs (c : Char) : Bool :=
  c = ' ' || c = '\t' || c = '\n' || c = '\r' || c = '\x0b' || c = '\x0c'

/-- Worker for pySplit, accumulating the current word in reverse. -/
def pySplitAux : List Char → List Char → List (List Char)
  | [], acc => if acc.isEmpty then [] else [acc.reverse]
  | c :: rest, acc =>
    if isPyWs c then
      if acc.isEmpty then pySplitAux rest [] else acc.reverse :: pySplitAux rest []
    else pySplitAux rest (c :: acc)

/-- Model of Python str.split() with no argument: split on whitespace
runs, dropping empty fields. -/
def pySplit (s : List Char) : List (List Char) := pySplitAux s []

/-- Model of `' '.join(ws)`. -/
def joinSp : List (List Char) → List Char
  | [] => []
  | [w] => w
  | w :: ws => w ++ ' ' :: joinSp ws

/-- Model of str.strip() with no argument. -/
def pyStrip (s : List Char) : List Char :=
  ((s.dropWhile isPyWs).reverse.dropWhile isPyWs).reverse

/-- The first field of `s.split("\n")`: the prefix before the first
newline, or the whole string. -/
def firstLineOf (s : List Char) : List Char := s.takeWhile (fun c => c ≠ '\n')

/-- Model of str.lower(), ASCII range (all inputs here are ASCII). -/
def pyLower (s : List Char) : List Char := s.map Char.toLower

/-- Python `needle in hay` on strings: contiguous substring test. -/
def pyIn (needle : List Char) : List Char → Bool
  | [] => needle.isEmpty
  | c :: rest => needle.isPrefixOf (c :: rest) || pyIn needle rest

/-- The title prompt of get_pdf_title_from_content (app.py lines 129-133),
over the first chunk_size whitespace-separated words of the text. -/
def title_prompt (full_text : String) (max_words chunk_size : Nat) : String :=
  "Based on the following text, summarize the main topic or theme in a short, clear phrase suitable as the root node of a mindmap. " ++
  "Use no more than " ++ toString max_words ++ " words.\n\nText:\n" ++
  String.mk (joinSp ((pySplit full_text.data).take chunk_size))

/-- The processed candidate title: first line of the stripped reply,
truncated to max_words whitespace-separated words and re-joined with
single spaces (app.py lines 139-140). -/
def short_title_of (out : String) (max_words : Nat) : List Char :=
  joinSp ((pySplit (firstLineOf (pyStrip out.data))).take max_words)

/-- Model of get_pdf_title_from_content (app.py lines 127-145). The whole
client call and postprocessing sit in try/except, so a client error
yields the fallback title rather than propagating. -/
def get_pdf_title_from_content (llm : String → Except LLMErr String)
    (full_text : String) (max_words chunk_size : Nat) : String :=
  match llm (title_prompt full_text max_words chunk_size) with
  | Except.error _ => "Untitled Document"
  | Except.ok out =>
    if (short_title_of out max_words).isEmpty ||
        pyIn ("please provide").data (pyLower (short_title_of out max_words)) then
      "Untitled Document"
    else String.mk (short_title_of out max_words)

/-- A Python mindmap-tree dict, restricted to the four keys the code
reads. The fields hold the values of tree.get("name") (null when the key
is absent), tree.get("tooltip", "") and tree.get("type", "") (defaults
already applied), and `tree.get("children", []) or []`. -/
inductive Tree where
  | node (name : Json) (tooltip : Json) (ntype : Json) (children : List Tree) : Tree

/-- One entry of the nodes list built by flatten_tree_to_nodes_links. -/
structure NodeRec where
  id : Json
  tooltip : Json
  ntype : Json

/-- One entry of the links list built by flatten_tree_to_nodes_links. -/
structure LinkRec where
  source : Json
  target : Json

mutual

/-- Model of flatten_tree_to_nodes_links (app.py lines 156-167); the
Python accumulator lists become the returned pair, preserving append
order (node, its parent link, then the children in order). The parent
link is appended only when the parent name is truthy. -/
def flatten_tree_to_nodes_links : Tree → Json → List NodeRec × List LinkRec
  | Tree.node name tooltip ntype children, parent_name =>
    let rest := flatten_children children name
    (NodeRec.mk name tooltip ntype :: rest.1,
     (if py_truthy parent_name then [LinkRec.mk parent_name name] else []) ++ rest.2)

/-- Flattening of a children list against the name of the parent node. -/
def flatten_children : List Tree → Json → List NodeRec × List LinkRec
  | [], _ => ([], [])
  | t :: ts, p =>
    let a := flatten_tree_to_nodes_links t p
    let b := flatten_children ts p
    (a.1 ++ b.1, a.2 ++ b.2)

end

/-- Python `n["id"] == center_title` where center_title is a str: equal
exactly when the value is that string. -/
def pyEqStr (v : Json) (s : String) : Bool :=
  match v with
  | Json.str t => t == s
  | _ => false

/-- A node as rendered by create_multilevel_mindmap_html after group
assignment: group 0 marks the root. -/
structure GNode where
  id : Json
  tooltip : Json
  ntype : Json
  group : Nat

/-- The group-assignment loop of create_multilevel_mindmap_html
(app.py lines 171-172). -/
def assign_groups (nodes : List NodeRec) (center_title : String) : List GNode :=
  nodes.map (fun n => GNode.mk n.id n.tooltip n.ntype (if pyEqStr n.id center_title then 0 else 1))

/-- The node data create_multilevel_mindmap_html feeds the renderer
(app.py lines 169-172); the HTML/JS text itself is not modelled. -/
def create_multilevel_mindmap_nodes (tree : Tree) (center_title : String) : List GNode :=
  assign_groups (flatten_tree_to_nodes_links tree Json.null).1 center_title

/-- One child dict of concept_map_to_tree: name from item["term"],
tooltip from item["tooltip"]; either access raises KeyError when the key
is absent. -/
def concept_child (item : Json) : Except PyErr Tree := do
  let t ← pyGetItem item "term"
  let tip ← pyGetItem item "tooltip"
  pure (Tree.node t tip (Json.str "") [])

/-- The children list comprehension of concept_map_to_tree: items are
processed left to right and the first exception wins. -/
def concept_children : List Json → Except PyErr (List Tree)
  | [] => Except.ok []
  | item :: rest =>
    match concept_child item with
    | Except.error e => Except.error e
    | Except.ok c =>
      match concept_children rest with
      | Except.error e => Except.error e
      | Except.ok cs => Except.ok (c :: cs)

/-- Model of concept_map_to_tree (app.py lines 147-154). -/
def concept_map_to_tree (glossary : List Json) (root_title : String) : Except PyErr Tree :=
  match concept_children glossary with
  | Except.error e => Except.error e
  | Except.ok children =>
    Except.ok (Tree.node (Json.str root_title) (Json.str "Key concepts from the document.")
      (Json.str "") children)

mutual

/-- Number of nodes of a tree. -/
def Tree.size : Tree → Nat
  | Tree.node _ _ _ cs => 1 + sizeList cs

/-- Total number of nodes of a list of trees. -/
def sizeList : List Tree → Nat
  | [] => 0
  | t :: ts => Tree.size t + sizeList ts

end

mutual

/-- The names of the tree nodes in preorder, the traversal order of
flatten_tree_to_nodes_links. -/
def preorderNames : Tree → List Json
  | Tree.node n _ _ cs => n :: preorderNamesList cs

/-- Preorder names of a list of trees. -/
def preorderNamesList : List Tree → List Json
  | [] => []
  | t :: ts => preorderNames t ++ preorderNamesList ts

end

mutual

/-- Every node that has children carries a truthy name, so its children
get their parent link in flatten_tree_to_nodes_links. -/
def parentsTruthy : Tree → Bool
  | Tree.node n _ _ cs => (cs.isEmpty || py_truthy n) && parentsTruthyList cs

/-- parentsTruthy over a list of trees. -/
def parentsTruthyList : List Tree → Bool
  | [] => true
  | t :: ts => parentsTruthy t && parentsTruthyList ts

end

/-- The per-document session state of the app (app.py lines 385-387):
every slot starts as None. -/
structure SessionState where
  file_hash : Option String
  full_text : Option String
  pdf_title : Option String
  concept_map : Option Json
  structure_map : Option Json
  argument_map : Option Json

/-- The fresh session state. -/
def init_session_state : SessionState := SessionState.mk none none none none none none

/-- The three extraction modes run by the upload block. -/
inductive Mode where
  | conceptMap : Mode
  | structureMap : Mode
  | argumentMap : Mode

/-- Outcome of one run of the upload block: the session state after it,
the trace of extraction passes it performed, and the exception that
escaped it, if any (state mutations before the exception persist, as in
Streamlit session state). -/
structure ProcessResult where
  state : SessionState
  modes_run : List Mode
  err : Option PyErr

/-- Model of the file upload and processing block (app.py lines 417-463).
compute_file_hash (md5 of the raw bytes) and extract_text_from_pdf are
external and passed as parameters hashf and extractf over the uploaded
content. When the stored hash equals the new hash the block is skipped
wholesale; otherwise the hash is stored first and the text, title and the
three maps are recomputed in order, each result overwriting its slot as
it completes. -/
def process_upload (hashf : List Nat → String) (extractf : List Nat → String)
    (llm : String → Except LLMErr String) (uploaded : List Nat) (s : SessionState) :
    ProcessResult :=
  if s.file_hash = some (hashf uploaded) then ProcessResult.mk s [] none
  else
    match get_concept_map llm (extractf uploaded) MAX_TERMS with
    | Except.error e =>
      ProcessResult.mk
        (SessionState.mk (some (hashf uploaded)) (some (extractf uploaded))
          (some (get_pdf_title_from_content llm (extractf uploaded) 8 1000))
          s.concept_map s.structure_map s.argument_map)
        [Mode.conceptMap] (some e)
    | Except.ok cm =>
      match get_structure_map llm (extractf uploaded) with
      | Except.error e =>
        ProcessResult.mk
          (SessionState.mk (some (hashf uploaded)) (some (extractf uploaded))
            (some (get_pdf_title_from_content llm (extractf uploaded) 8 1000))
            (some cm) s.structure_map s.argument_map)
          [Mode.conceptMap, Mode.structureMap] (some e)
      | Except.ok sm =>
        match get_argument_map llm (extractf uploaded) with
        | Except.error e =>
          ProcessResult.mk
            (SessionState.mk (some (hashf uploaded)) (some (extractf uploaded))
              (some (get_pdf_title_from_content llm (extractf uploaded) 8 1000))
              (some cm) (some sm) s.argument_map)
            [Mode.conceptMap, Mode.structureMap, Mode.argumentMap] (some e)
        | Except.ok am =>
          ProcessResult.mk
            (SessionState.mk (some (hashf uploaded)) (some (extractf uploaded))
              (some (get_pdf_title_from_content llm (extractf uploaded) 8 1000))
              (some cm) (some sm) (some am))
            [Mode.conceptMap, Mode.structureMap, Mode.argumentMap] none

/-- The name field of a tree node. -/
def Tree.name : Tree → Json
  | Tree.node n _ _ _ => n

/-- A well-formed concept item, as a JSON object with term and tooltip. -/
def mkConceptItem (q : String × String) : Json :=
  Json.obj [("term", Json.str q.1), ("tooltip", Json.str q.2)]

/-- All contiguous substrings of a character list (with repetition). -/
def substringsOf (l : List Char) : List (List Char) :=
  (l.tails.map (fun t => t.inits)).flatten

/-- The collaborator response of the C1 end-to-end scenario: a JSON array
of one term object surrounded by commentary. -/
def respC1 : String :=
  "Here you go:\n[\x7b\"term\":\"Photosynthesis\",\"tooltip\":\"Process converting light to chemical energy.\"\x7d]\nThanks!"

/-- A concept-list response with one well-formed and one malformed entry
(missing term). -/
def rawC4 : String := "[\x7b\"term\":\"A\",\"tooltip\":\"a\"\x7d,\x7b\"tooltip\":\"b\"\x7d]"

/-- A concept-list response with two entries sharing the same term. -/
def rawC5 : String := "[\x7b\"term\":\"A\",\"tooltip\":\"1\"\x7d,\x7b\"term\":\"A\",\"tooltip\":\"2\"\x7d]"

/-- A two-node tree whose root name is the empty string, so the child
link is dropped by the truthiness test of flatten_tree_to_nodes_links. -/
def emptyNameTree : Tree :=
  Tree.node (Json.str "") (Json.str "") (Json.str "")
    [Tree.node (Json.str "A") (Json.str "") (Json.str "") []]

/-- A two-node tree whose child shares the root name, with distinct
tooltips. -/
def dupNameTree : Tree :=
  Tree.node (Json.str "A") (Json.str "t1") (Json.str "")
    [Tree.node (Json.str "A") (Json.str "t2") (Json.str "") []]

/-- A two-node tree with distinct names, used as a witness input. -/
def plainTree : Tree :=
  Tree.node (Json.str "R") (Json.str "") (Json.str "")
    [Tree.node (Json.str "A") (Json.str "") (Json.str "") []]

/-- A fully populated session state, as left behind by a previously
processed document. -/
def priorState : SessionState :=
  SessionState.mk (some "old") (some "prior text") (some "Prior Title")
    (some (Json.arr [Json.str "PC"]))
    (some (Json.obj [("name", Json.str "PS")]))
    (some (Json.obj [("name", Json.str "PA")]))

/-! Lemmas about the regex-slice model. -/

theorem firstIdxOf_cons_self (c : Char) (l : List Char) : firstIdxOf c (c :: l) = some 0 := by
  simp [firstIdxOf]

theorem firstIdxOf_append_cons_self {c : Char} {l1 : List Char} (h : c ∉ l1)
    (r : List Char) :
    firstIdxOf c (l1 ++ c :: r) = some l1.length := by
  induction l1 with
  | nil => simp [firstIdxOf]
  | cons a l1 ih =>
    have ha : ¬(a = c) := by
      intro hh
      exact h (hh ▸ List.mem_cons_self a l1)
    have ih2 := ih (fun hm => h (List.mem_cons_of_mem _ hm))
    simp [firstIdxOf, ha, ih2]

theorem braceSlice_of_wrapped (p m s : List Char) (hm : m ≠ [])
    (hp : openBrace ∉ p) (hs : closeBrace ∉ s) :
    braceSlice (p ++ (openBrace :: m ++ [closeBrace]) ++ s) =
      some (openBrace :: m ++ [closeBrace]) := by
  have h1 : firstIdxOf openBrace (p ++ (openBrace :: m ++ [closeBrace]) ++ s) =
      some p.length := by
    rw [List.append_assoc]
    rw [show (openBrace :: m ++ [closeBrace]) ++ s = openBrace :: (m ++ [closeBrace] ++ s) by simp]
    exact firstIdxOf_append_cons_self hp _
  have h2 : lastIdxOf closeBrace (p ++ (openBrace :: m ++ [closeBrace]) ++ s) =
      some (p.length + m.length + 1) := by
    unfold lastIdxOf
    have hrev : (p ++ (openBrace :: m ++ [closeBrace]) ++ s).reverse =
        s.reverse ++ closeBrace :: (m.reverse ++ (openBrace :: p.reverse)) := by
      simp
    rw [hrev, firstIdxOf_append_cons_self (by simpa using hs)]
    simp [List.length_append]
    omega
  unfold braceSlice
  rw [h1, h2]
  have hcond : p.length + 2 ≤ p.length + m.length + 1 := by
    have := List.length_pos.mpr hm
    omega
  show (if p.length + 2 ≤ p.length + m.length + 1 then
      some ((((p ++ (openBrace :: m ++ [closeBrace]) ++ s)).take
        (p.length + m.length + 1 + 1)).drop p.length)
    else none) = some (openBrace :: m ++ [closeBrace])
  rw [if_pos hcond]
  have hlen : (p ++ (openBrace :: m ++ [closeBrace])).length = p.length + m.length + 1 + 1 := by
    simp
    omega
  rw [List.take_left' hlen, List.drop_left]

/-! Theorems settling claims C2, C3, C4, C5 about the salvage parser and
the concept-list pipeline, and C1 about the end-to-end scenario. -/

/-- Claim C1 (code bug witness): on the ConceptList end-to-end scenario
response, robust_json_extract with want_list extracts the inner term
object (the brace regex fires before the array is considered), and
get_concept_map then raises TypeError slicing the resulting dict, instead
of the pipeline producing a two-node one-edge graph. -/
theorem c1_concept_pipeline_raises :
    robust_json_extract respC1 true =
      some (Json.obj [("term", Json.str "Photosynthesis"),
        ("tooltip", Json.str "Process converting light to chemical energy.")]) ∧
    get_concept_map (fun _ => Except.ok respC1)
      ("Photosynthesis converts light into energy.") MAX_TERMS =
      Except.error (PyErr.typeError ("unhashable type: slice")) :=
  ⟨rfl, rfl⟩

/-- Claim C2 (counterexample): the string "It is 7 ok" embeds exactly one
strict-valid JSON value (every parseable contiguous substring parses to
the number 7) surrounded by non-JSON text, yet robust_json_extract
returns None for both values of want_list. -/
theorem c2_counterexample :
    (substringsOf ("It is 7 ok").data).filterMap json_loads_core =
      [Json.num 7, Json.num 7, Json.num 7, Json.num 7] ∧
    (robust_json_extract ("It is 7 ok") false).isNone = true ∧
    (robust_json_extract ("It is 7 ok") true).isNone = true :=
  ⟨rfl, rfl, rfl⟩

/-- Claim C2 (amended): salvage recovery succeeds when the embedded value
is a brace-delimited JSON object whose opening brace is the first brace
of the string and whose closing brace is the last (no opening brace in
the prefix, no closing brace in the suffix, at least one character
between the braces); then robust_json_extract returns its parse for
either want_list value. -/
theorem c2_amended (p m s : List Char) (want_list : Bool) (val : Json)
    (hm : m ≠ []) (hp : openBrace ∉ p) (hs : closeBrace ∉ s)
    (hparse : json_loads_core (openBrace :: m ++ [closeBrace]) = some val) :
    robust_json_extract_core (p ++ (openBrace :: m ++ [closeBrace]) ++ s) want_list =
      some val := by
  simp only [robust_json_extract_core, slice_candidate,
    braceSlice_of_wrapped p m s hm hp hs, hparse]

/-- Witness for the amended C2 at a concrete input. -/
theorem c2_amended_witness :
    robust_json_extract_core
      (("x ").data ++ (openBrace :: ("\"a\":1").data ++ [closeBrace]) ++ (" y").data) false =
      some (Json.obj [("a", Json.num 1)]) :=
  c2_amended _ _ _ false _ (by decide) (by decide) (by decide) rfl

/-- Claim C3 (counterexample): the input is in its entirety a strict-valid
JSON array, but robust_json_extract returns the inner object extracted by
the brace regex, not the whole-input parse, for both values of
want_list. -/
theorem c3_counterexample :
    json_loads ("[\x7b\"a\":1\x7d]") = some (Json.arr [Json.obj [("a", Json.num 1)]]) ∧
    robust_json_extract ("[\x7b\"a\":1\x7d]") true = some (Json.obj [("a", Json.num 1)]) ∧
    robust_json_extract ("[\x7b\"a\":1\x7d]") false = some (Json.obj [("a", Json.num 1)]) ∧
    robust_json_extract ("[\x7b\"a\":1\x7d]") true ≠ json_loads ("[\x7b\"a\":1\x7d]") := by
  refine ⟨rfl, rfl, rfl, ?_⟩
  intro h
  have h2 : Json.obj [("a", Json.num 1)] = Json.arr [Json.obj [("a", Json.num 1)]] :=
    Option.some.inj h
  exact Json.noConfusion h2

/-- Claim C3 (amended): the strict parse of the entire input is the last
attempt, not the first: whenever no regex slice parses, an input whose
entirety is strict-valid JSON is returned as the whole-input parse,
regardless of want_list. -/
theorem c3_amended (raw : List Char) (want_list : Bool) (v : Json)
    (h1 : (slice_candidate raw want_list).bind json_loads_core = none)
    (h2 : json_loads_core raw = some v) :
    robust_json_extract_core raw want_list = some v := by
  unfold robust_json_extract_core
  cases hc : slice_candidate raw want_list with
  | none => simpa using h2
  | some g =>
    rw [hc] at h1
    have h3 : json_loads_core g = none := h1
    simp [h3, h2]

/-- Witness for the amended C3 at a concrete input. -/
theorem c3_amended_witness :
    robust_json_extract_core (("7").data) false = some (Json.num 7) :=
  c3_amended _ false _ rfl rfl

/-- Claim C4 (counterexample): with one well-formed and one malformed
entry (N = 1, M = 1) the pipeline keeps both entries instead of yielding
exactly N, and building the concept tree then raises KeyError on the
malformed entry instead of dropping it. -/
theorem c4_counterexample :
    get_concept_map (fun _ => Except.ok rawC4) ("doc") MAX_TERMS =
      Except.ok (Json.arr
        [Json.obj [("term", Json.str "A"), ("tooltip", Json.str "a")],
         Json.obj [("tooltip", Json.str "b")]]) ∧
    concept_map_to_tree
      [Json.obj [("term", Json.str "A"), ("tooltip", Json.str "a")],
       Json.obj [("tooltip", Json.str "b")]] ("Untitled Document") =
      Except.error (PyErr.keyError ("term")) :=
  ⟨rfl, rfl⟩

/-- Claim C4 (amended): no per-entry validation happens: whenever the
salvage parse of the response is an array, get_concept_map returns its
first MAX_TERMS entries verbatim, in order, malformed entries
included. -/
theorem c4_amended (raw full_text : String) (l : List Json)
    (h : robust_json_extract raw true = some (Json.arr l)) :
    get_concept_map (fun _ => Except.ok raw) full_text MAX_TERMS =
      Except.ok (Json.arr (l.take MAX_TERMS)) := by
  cases l with
  | nil => simp [get_concept_map, h, py_truthy]
  | cons a l => simp [get_concept_map, h, py_truthy, pySlice]

/-- Witness for the amended C4 at a concrete input. -/
theorem c4_amended_witness :
    get_concept_map (fun _ => Except.ok ("[]")) ("d") MAX_TERMS = Except.ok (Json.arr []) :=
  c4_amended ("[]") ("d") [] rfl

/-- Claim C5 (counterexample): two entries with the same term "A" both
survive get_concept_map, and concept_map_to_tree builds two children
named "A" — the later duplicate is not dropped. -/
theorem c5_counterexample :
    get_concept_map (fun _ => Except.ok rawC5) ("doc") MAX_TERMS =
      Except.ok (Json.arr
        [Json.obj [("term", Json.str "A"), ("tooltip", Json.str "1")],
         Json.obj [("term", Json.str "A"), ("tooltip", Json.str "2")]]) ∧
    concept_map_to_tree
      [Json.obj [("term", Json.str "A"), ("tooltip", Json.str "1")],
       Json.obj [("term", Json.str "A"), ("tooltip", Json.str "2")]] ("T") =
      Except.ok (Tree.node (Json.str "T") (Json.str "Key concepts from the document.")
        (Json.str "")
        [Tree.node (Json.str "A") (Json.str "1") (Json.str "") [],
         Tree.node (Json.str "A") (Json.str "2") (Json.str "") []]) ∧
    ((Tree.node (Json.str "T") (Json.str "Key concepts from the document.") (Json.str "")
        [Tree.node (Json.str "A") (Json.str "1") (Json.str "") [],
         Tree.node (Json.str "A") (Json.str "2") (Json.str "") []] : Tree) |>
      preorderNames).countP (fun x => pyEqStr x ("A")) = 2 :=
  ⟨rfl, rfl, rfl⟩

/-- Claim C5 (amended): no deduplication happens anywhere in the concept
pipeline: every glossary entry becomes its own child of the concept tree,
in order, and a term occurring k times in the glossary names exactly k
children. -/
theorem c5_amended (g : List (String × String)) (rt : String) :
    concept_map_to_tree (g.map mkConceptItem) rt =
      Except.ok (Tree.node (Json.str rt) (Json.str "Key concepts from the document.")
        (Json.str "")
        (g.map (fun q => Tree.node (Json.str q.1) (Json.str q.2) (Json.str "") []))) ∧
    ∀ t : String,
      ((g.map (fun q => Tree.node (Json.str q.1) (Json.str q.2) (Json.str "") [])).map
          Tree.name).countP (fun x => pyEqStr x t) =
        g.countP (fun q => q.1 == t) := by
  constructor
  · have key : ∀ gs : List (String × String),
        concept_children (gs.map mkConceptItem) =
          Except.ok (gs.map (fun q => Tree.node (Json.str q.1) (Json.str q.2) (Json.str "") [])) := by
      intro gs
      induction gs with
      | nil => rfl
      | cons q gs ih =>
        have hchild : concept_child (mkConceptItem q) =
            Except.ok (Tree.node (Json.str q.1) (Json.str q.2) (Json.str "") []) := rfl
        simp [concept_children, ih, hchild]
    simp [concept_map_to_tree, key]
  · intro t
    rw [List.map_map, List.countP_map]
    rfl

/-! Tree lemmas for the graph-normalization claims. -/

theorem Tree.indMem (P : Tree → Prop)
    (h : ∀ n tt ty cs, (∀ c ∈ cs, P c) → P (Tree.node n tt ty cs)) :
    ∀ t, P t
  | Tree.node n tt ty cs => h n tt ty cs (fun c hc => Tree.indMem P h c)
termination_by t => sizeOf t
decreasing_by
  simp_wf
  have := List.sizeOf_lt_of_mem hc
  omega

theorem Tree.size_pos (t : Tree) : 1 ≤ Tree.size t := by
  cases t with
  | node n tt ty cs =>
    simp [Tree.size]

theorem flatten_nodes_map_id (t : Tree) :
    ∀ p : Json, (flatten_tree_to_nodes_links t p).1.map NodeRec.id = preorderNames t := by
  induction t using Tree.indMem with
  | _ n tt ty cs ih =>
    intro p
    have aux : ∀ l : List Tree,
        (∀ c ∈ l, ∀ q : Json, (flatten_tree_to_nodes_links c q).1.map NodeRec.id = preorderNames c) →
        ∀ q : Json, (flatten_children l q).1.map NodeRec.id = preorderNamesList l := by
      intro l
      induction l with
      | nil => intro _ q; simp [flatten_children, preorderNamesList]
      | cons c l ihl =>
        intro hmem q
        simp [flatten_children, preorderNamesList, hmem c (List.mem_cons_self c l) q,
          ihl (fun x hx => hmem x (List.mem_cons_of_mem _ hx)) q]
    simp [flatten_tree_to_nodes_links, preorderNames, aux cs ih n]

theorem flatten_nodes_len (t : Tree) :
    ∀ p : Json, (flatten_tree_to_nodes_links t p).1.length = Tree.size t := by
  induction t using Tree.indMem with
  | _ n tt ty cs ih =>
    intro p
    have aux : ∀ l : List Tree,
        (∀ c ∈ l, ∀ q : Json, (flatten_tree_to_nodes_links c q).1.length = Tree.size c) →
        ∀ q : Json, (flatten_children l q).1.length = sizeList l := by
      intro l
      induction l with
      | nil => intro _ q; simp [flatten_children, sizeList]
      | cons c l ihl =>
        intro hmem q
        simp [flatten_children, sizeList, hmem c (List.mem_cons_self c l) q,
          ihl (fun x hx => hmem x (List.mem_cons_of_mem _ hx)) q]
    simp [flatten_tree_to_nodes_links, Tree.size, aux cs ih n]
    omega

theorem flatten_links_len (t : Tree) :
    ∀ p : Json, parentsTruthy t = true →
      (flatten_tree_to_nodes_links t p).2.length =
        (Tree.size t - 1) + (if py_truthy p then 1 else 0) := by
  induction t using Tree.indMem with
  | _ n tt ty cs ih =>
    intro p ht
    have ht2 : (cs.isEmpty || py_truthy n) = true ∧ parentsTruthyList cs = true := by
      simpa [parentsTruthy, Bool.and_eq_true] using ht
    have aux : ∀ l : List Tree,
        (∀ c ∈ l, ∀ q : Json, parentsTruthy c = true →
          (flatten_tree_to_nodes_links c q).2.length =
            (Tree.size c - 1) + (if py_truthy q then 1 else 0)) →
        parentsTruthyList l = true → py_truthy n = true →
        (flatten_children l n).2.length = sizeList l := by
      intro l
      induction l with
      | nil => intro _ _ _; simp [flatten_children, sizeList]
      | cons c l ihl =>
        intro hmem hpt hn
        have hpt2 : parentsTruthy c = true ∧ parentsTruthyList l = true := by
          simpa [parentsTruthyList, Bool.and_eq_true] using hpt
        have h1 := hmem c (List.mem_cons_self c l) n hpt2.1
        have h2 := ihl (fun x hx => hmem x (List.mem_cons_of_mem _ hx)) hpt2.2 hn
        have hsz := Tree.size_pos c
        simp [flatten_children, sizeList, h1, h2, hn]
        omega
    by_cases hcs : cs.isEmpty
    · have hnil : cs = [] := by simpa using hcs
      subst hnil
      cases hp : py_truthy p <;>
        simp [flatten_tree_to_nodes_links, flatten_children, Tree.size, sizeList, hp]
    · have hcs2 : cs.isEmpty = false := by simpa using hcs
      have hn : py_truthy n = true := by
        have := ht2.1
        rw [hcs2] at this
        simpa using this
      have hlen := aux cs ih ht2.2 hn
      have hsp := Tree.size_pos (Tree.node n tt ty cs)
      have hsz : Tree.size (Tree.node n tt ty cs) = 1 + sizeList cs := by
        simp [Tree.size]
      cases hp : py_truthy p <;>
        simp [flatten_tree_to_nodes_links, hp, hlen, hsz]

theorem assign_groups_root_count (ns : List NodeRec) (ct : String) :
    ((assign_groups ns ct).filter (fun g => g.group == 0)).length =
      ns.countP (fun n => pyEqStr n.id ct) := by
  induction ns with
  | nil => rfl
  | cons n ns ih =>
    unfold assign_groups at ih ⊢
    by_cases h : pyEqStr n.id ct
    · simp [List.filter_cons, List.countP_cons, h, ih]
    · have h2 : pyEqStr n.id ct = false := by simpa using h
      simp [List.filter_cons, List.countP_cons, h2, ih]

theorem rendered_root_count (t : Tree) (ct : String) :
    ((create_multilevel_mindmap_nodes t ct).filter (fun g => g.group == 0)).length =
      (preorderNames t).countP (fun x => pyEqStr x ct) := by
  unfold create_multilevel_mindmap_nodes
  rw [assign_groups_root_count, ← flatten_nodes_map_id t Json.null, List.countP_map]
  rfl

/-! Theorems settling claims C6, C7, C8. -/

/-- Claim C6 (counterexample): a two-node tree whose root name is the
empty string has K = 2 nodes but zero edges, not K − 1 = 1: the parent
name fails the Python truthiness test, so the child link is dropped. -/
theorem c6_counterexample :
    Tree.size emptyNameTree = 2 ∧
    (flatten_tree_to_nodes_links emptyNameTree Json.null).2.length = 0 ∧
    (flatten_tree_to_nodes_links emptyNameTree Json.null).2.length ≠
      Tree.size emptyNameTree - 1 := by
  refine ⟨rfl, rfl, ?_⟩
  decide

/-- Claim C6 (amended): flattening a tree with K nodes always yields
exactly K node records; it yields exactly K − 1 links provided every node
that has children carries a truthy name; and the rendered graph marks
exactly one root provided exactly one node name equals the center
title. -/
theorem c6_amended (t : Tree) (ct : String) :
    (flatten_tree_to_nodes_links t Json.null).1.length = Tree.size t ∧
    (parentsTruthy t = true →
      (flatten_tree_to_nodes_links t Json.null).2.length = Tree.size t - 1) ∧
    ((preorderNames t).countP (fun x => pyEqStr x ct) = 1 →
      ((create_multilevel_mindmap_nodes t ct).filter (fun g => g.group == 0)).length = 1) := by
  refine ⟨flatten_nodes_len t Json.null, ?_, ?_⟩
  · intro h
    have h2 := flatten_links_len t Json.null h
    simpa [py_truthy] using h2
  · intro h
    rw [rendered_root_count t ct, h]

/-- Witness for the amended C6 at a concrete two-node tree. -/
theorem c6_amended_witness :
    (flatten_tree_to_nodes_links plainTree Json.null).1.length = Tree.size plainTree ∧
    (flatten_tree_to_nodes_links plainTree Json.null).2.length = Tree.size plainTree - 1 ∧
    ((create_multilevel_mindmap_nodes plainTree ("R")).filter (fun g => g.group == 0)).length = 1 :=
  ⟨(c6_amended plainTree ("R")).1, (c6_amended plainTree ("R")).2.1 rfl,
   (c6_amended plainTree ("R")).2.2 rfl⟩

/-- Claim C7 (counterexample): two distinct tree nodes with the same name
produce two separate node records sharing the id "A", each keeping its
own tooltip — no overwrite, no merge into a single node. -/
theorem c7_counterexample :
    (flatten_tree_to_nodes_links dupNameTree Json.null).1 =
      [NodeRec.mk (Json.str "A") (Json.str "t1") (Json.str ""),
       NodeRec.mk (Json.str "A") (Json.str "t2") (Json.str "")] ∧
    ((flatten_tree_to_nodes_links dupNameTree Json.null).1.filter
        (fun n => pyEqStr n.id ("A"))).length = 2 :=
  ⟨rfl, rfl⟩

/-- Claim C7 (amended): node ids are not deduplicated: flattening emits
one node record per source tree node, the id sequence being exactly the
preorder name sequence, so equal names yield repeated ids. -/
theorem c7_amended (t : Tree) :
    (flatten_tree_to_nodes_links t Json.null).1.map NodeRec.id = preorderNames t :=
  flatten_nodes_map_id t Json.null

/-- Claim C8 (counterexample): when the collaborator raises, each of the
three extraction operations propagates the exception (no value is
returned to the caller). -/
theorem c8_counterexample :
    (get_concept_map (fun _ => Except.error LLMErr.timeout) ("doc") MAX_TERMS).toOption =
      none ∧
    get_concept_map (fun _ => Except.error LLMErr.timeout) ("doc") MAX_TERMS =
      Except.error (PyErr.uncaught LLMErr.timeout) ∧
    get_structure_map (fun _ => Except.error LLMErr.timeout) ("doc") =
      Except.error (PyErr.uncaught LLMErr.timeout) ∧
    get_argument_map (fun _ => Except.error LLMErr.timeout) ("doc") =
      Except.error (PyErr.uncaught LLMErr.timeout) :=
  ⟨rfl, rfl, rfl, rfl⟩

/-- Claim C8 (amended): the three map extractors have no exception
handler: every collaborator failure propagates to the caller unchanged;
only get_pdf_title_from_content converts collaborator failure into a
value, the fallback title. -/
theorem c8_amended (e : LLMErr) (full_text : String) :
    get_concept_map (fun _ => Except.error e) full_text MAX_TERMS =
      Except.error (PyErr.uncaught e) ∧
    get_structure_map (fun _ => Except.error e) full_text = Except.error (PyErr.uncaught e) ∧
    get_argument_map (fun _ => Except.error e) full_text = Except.error (PyErr.uncaught e) ∧
    get_pdf_title_from_content (fun _ => Except.error e) full_text 8 1000 =
      "Untitled Document" :=
  ⟨rfl, rfl, rfl, rfl⟩

/-! Lemmas and theorems for the document-cache claim C9. -/

theorem process_upload_state_hash (hashf extractf : List Nat → String)
    (llm : String → Except LLMErr String) (uploaded : List Nat) (s : SessionState) :
    (process_upload hashf extractf llm uploaded s).state.file_hash =
      some (hashf uploaded) := by
  unfold process_upload
  by_cases h : s.file_hash = some (hashf uploaded)
  · rw [if_pos h]
    exact h
  · rw [if_neg h]
    cases get_concept_map llm (extractf uploaded) MAX_TERMS with
    | error e => rfl
    | ok cm =>
      cases get_structure_map llm (extractf uploaded) with
      | error e => rfl
      | ok sm =>
        cases get_argument_map llm (extractf uploaded) with
        | error e => rfl
        | ok am => rfl

theorem process_upload_skip (hashf extractf : List Nat → String)
    (llm : String → Except LLMErr String) (uploaded : List Nat) (s : SessionState)
    (h : s.file_hash = some (hashf uploaded)) :
    process_upload hashf extractf llm uploaded s = ProcessResult.mk s [] none := by
  unfold process_upload
  rw [if_pos h]

/-- Claim C9 (counterexample): when the collaborator raises during the
concept pass on newly seen content, the upload block stores the new
fingerprint but keeps every one of the prior document's maps: only the
concept pass is attempted, the prior structure and argument maps survive
under the new fingerprint, a second upload of the same content performs
no extraction and serves that stale state, and the state differs from
the one the same upload produces from an empty cache — different content
does not replace prior modes' results wholesale, and the structure and
argument modes get zero extraction passes, not one. -/
theorem c9_counterexample :
    (process_upload (fun b => toString b.length) (fun _ => "")
        (fun _ => Except.error LLMErr.timeout) [0] priorState).state.file_hash = some "1" ∧
    (process_upload (fun b => toString b.length) (fun _ => "")
        (fun _ => Except.error LLMErr.timeout) [0] priorState).state.structure_map =
      some (Json.obj [("name", Json.str "PS")]) ∧
    (process_upload (fun b => toString b.length) (fun _ => "")
        (fun _ => Except.error LLMErr.timeout) [0] priorState).state.argument_map =
      some (Json.obj [("name", Json.str "PA")]) ∧
    (process_upload (fun b => toString b.length) (fun _ => "")
        (fun _ => Except.error LLMErr.timeout) [0] priorState).modes_run =
      [Mode.conceptMap] ∧
    process_upload (fun b => toString b.length) (fun _ => "")
        (fun _ => Except.error LLMErr.timeout) [0]
        (process_upload (fun b => toString b.length) (fun _ => "")
          (fun _ => Except.error LLMErr.timeout) [0] priorState).state =
      ProcessResult.mk
        (process_upload (fun b => toString b.length) (fun _ => "")
          (fun _ => Except.error LLMErr.timeout) [0] priorState).state [] none ∧
    (process_upload (fun b => toString b.length) (fun _ => "")
        (fun _ => Except.error LLMErr.timeout) [0] init_session_state).state.structure_map =
      none ∧
    some (Json.obj [("name", Json.str "PS")]) ≠ (none : Option Json) :=
  ⟨rfl, rfl, rfl, rfl, rfl, rfl, fun h => Option.noConfusion h⟩

/-- Claim C9 (amended): the cache is keyed on the content fingerprint,
but replacement is wholesale only for runs that complete. A second run of
the upload block on content with the stored fingerprint performs no
extraction pass and leaves the state untouched, even when that state is
partial; a fresh fingerprint whose run completes without error runs each
mode exactly once, and the state it produces is independent of whatever
was cached before; but when the concept pass raises, the new fingerprint,
text and title are stored while all three of the prior document's maps
are retained, and only one extraction pass was attempted — different
content does not replace prior results wholesale on a failed run. -/
theorem c9_cache_correctness (hashf extractf : List Nat → String)
    (llm : String → Except LLMErr String) (c c2 : List Nat) (s s2 : SessionState) :
    process_upload hashf extractf llm c (process_upload hashf extractf llm c s).state =
      ProcessResult.mk (process_upload hashf extractf llm c s).state [] none ∧
    (s.file_hash ≠ some (hashf c) → (process_upload hashf extractf llm c s).err = none →
      (process_upload hashf extractf llm c s).modes_run =
        [Mode.conceptMap, Mode.structureMap, Mode.argumentMap]) ∧
    (s.file_hash ≠ some (hashf c2) → s2.file_hash ≠ some (hashf c2) →
      (process_upload hashf extractf llm c2 s).err = none →
      process_upload hashf extractf llm c2 s = process_upload hashf extractf llm c2 s2) ∧
    (s.file_hash ≠ some (hashf c) →
      ∀ e, get_concept_map llm (extractf c) MAX_TERMS = Except.error e →
      process_upload hashf extractf llm c s =
        ProcessResult.mk
          (SessionState.mk (some (hashf c)) (some (extractf c))
            (some (get_pdf_title_from_content llm (extractf c) 8 1000))
            s.concept_map s.structure_map s.argument_map)
          [Mode.conceptMap] (some e)) := by
  refine ⟨process_upload_skip _ _ _ _ _ (process_upload_state_hash _ _ _ _ _), ?_, ?_, ?_⟩
  · intro h he
    unfold process_upload at he ⊢
    rw [if_neg h] at he ⊢
    cases hc : get_concept_map llm (extractf c) MAX_TERMS with
    | error e =>
      rw [hc] at he
      all_goals exact Option.noConfusion he
    | ok cm =>
      rw [hc] at he
      cases hs : get_structure_map llm (extractf c) with
      | error e =>
        rw [hs] at he
        all_goals exact Option.noConfusion he
      | ok sm =>
        rw [hs] at he
        cases ha : get_argument_map llm (extractf c) with
        | error e =>
          rw [ha] at he
        | ok am => rfl
  · intro h1 h2 he
    unfold process_upload at he ⊢
    rw [if_neg h1] at he ⊢
    rw [if_neg h2]
    cases hc : get_concept_map llm (extractf c2) MAX_TERMS with
    | error e =>
      rw [hc] at he
      all_goals exact Option.noConfusion he
    | ok cm =>
      rw [hc] at he
      cases hs : get_structure_map llm (extractf c2) with
      | error e =>
        rw [hs] at he
        all_goals exact Option.noConfusion he
      | ok sm =>
        rw [hs] at he
        cases ha : get_argument_map llm (extractf c2) with
        | error e =>
          rw [ha] at he
          all_goals exact Option.noConfusion he
        | ok am => rfl
  · intro h e he
    unfold process_upload
    rw [if_neg h, he]

/-- Witness for C9 at a concrete collaborator, hash, text extractor and
pair of contents. -/
theorem c9_cache_witness :
    process_upload (fun b => toString b.length) (fun _ => "") (fun _ => Except.ok ("[]")) [0]
        (process_upload (fun b => toString b.length) (fun _ => "") (fun _ => Except.ok ("[]"))
          [0] init_session_state).state =
      ProcessResult.mk
        (process_upload (fun b => toString b.length) (fun _ => "") (fun _ => Except.ok ("[]"))
          [0] init_session_state).state [] none ∧
    (process_upload (fun b => toString b.length) (fun _ => "") (fun _ => Except.ok ("[]")) [0]
        init_session_state).modes_run =
      [Mode.conceptMap, Mode.structureMap, Mode.argumentMap] ∧
    process_upload (fun b => toString b.length) (fun _ => "") (fun _ => Except.ok ("[]")) [0, 1]
        init_session_state =
      process_upload (fun b => toString b.length) (fun _ => "") (fun _ => Except.ok ("[]")) [0, 1]
        (SessionState.mk (some "zzz") none none none none none) ∧
    process_upload (fun b => toString b.length) (fun _ => "")
        (fun _ => Except.error LLMErr.timeout) [0] priorState =
      ProcessResult.mk
        (SessionState.mk (some "1") (some "") (some "Untitled Document")
          (some (Json.arr [Json.str "PC"]))
          (some (Json.obj [("name", Json.str "PS")]))
          (some (Json.obj [("name", Json.str "PA")])))
        [Mode.conceptMap] (some (PyErr.uncaught LLMErr.timeout)) := by
  have h := c9_cache_correctness (fun b => toString b.length) (fun _ => "")
    (fun _ => Except.ok ("[]")) [0] [0, 1] init_session_state
    (SessionState.mk (some "zzz") none none none none none)
  have hf := c9_cache_correctness (fun b => toString b.length) (fun _ => "")
    (fun _ => Except.error LLMErr.timeout) [0] [0] priorState priorState
  exact ⟨h.1, h.2.1 (by decide) rfl, h.2.2.1 (by decide) (by decide) rfl,
    hf.2.2.2 (by decide) (PyErr.uncaught LLMErr.timeout) rfl⟩

/-! Lemmas about Python word splitting, for the title claim C10. -/

theorem pySplitAux_words (s : List Char) :
    ∀ acc : List Char, (∀ c ∈ acc, isPyWs c = false) →
      ∀ w ∈ pySplitAux s acc, w ≠ [] ∧ ∀ c ∈ w, isPyWs c = false := by
  induction s with
  | nil =>
    intro acc hacc w hw
    by_cases h : acc.isEmpty
    · simp [pySplitAux, h] at hw
    · simp [pySplitAux, h] at hw
      subst hw
      refine ⟨?_, ?_⟩
      · intro hrev
        have hnil : acc = [] := by simpa using hrev
        rw [hnil] at h
        exact h rfl
      · intro ch hc
        exact hacc ch (by simpa using hc)
  | cons a s ih =>
    intro acc hacc w hw
    by_cases ha : isPyWs a
    · by_cases h : acc.isEmpty
      · rw [show pySplitAux (a :: s) acc = pySplitAux s [] by simp [pySplitAux, ha, h]] at hw
        exact ih [] (by intro c hc; cases hc) w hw
      · rw [show pySplitAux (a :: s) acc = acc.reverse :: pySplitAux s [] by
          simp [pySplitAux, ha, h]] at hw
        rcases List.mem_cons.mp hw with h1 | h2
        · subst h1
          refine ⟨?_, ?_⟩
          · intro hrev
            have hnil : acc = [] := by simpa using hrev
            rw [hnil] at h
            exact h rfl
          · intro ch hc
            exact hacc ch (by simpa using hc)
        · exact ih [] (by intro c hc; cases hc) w h2
    · have ha2 : isPyWs a = false := by simpa using ha
      rw [show pySplitAux (a :: s) acc = pySplitAux s (a :: acc) by simp [pySplitAux, ha2]] at hw
      refine ih (a :: acc) ?_ w hw
      intro c hc
      rcases List.mem_cons.mp hc with h1 | h2
      · rw [h1]
        exact ha2
      · exact hacc c h2

theorem pySplit_words (s : List Char) :
    ∀ w ∈ pySplit s, w ≠ [] ∧ ∀ c ∈ w, isPyWs c = false :=
  pySplitAux_words s [] (by intro c hc; cases hc)

theorem pySplitAux_word_prefix (w : List Char) :
    ∀ r acc : List Char, (∀ c ∈ w, isPyWs c = false) →
      pySplitAux (w ++ r) acc = pySplitAux r (w.reverse ++ acc) := by
  induction w with
  | nil => intro r acc _; simp
  | cons a w ihw =>
    intro r acc hw
    have ha : isPyWs a = false := hw a (List.mem_cons_self a w)
    have h2 := ihw r (a :: acc) (fun x hx => hw x (List.mem_cons_of_mem _ hx))
    simp [pySplitAux, ha, h2]

theorem pySplit_joinSp : ∀ ws : List (List Char),
    (∀ w ∈ ws, w ≠ [] ∧ ∀ c ∈ w, isPyWs c = false) → pySplit (joinSp ws) = ws := by
  intro ws
  induction ws with
  | nil => intro _; rfl
  | cons w ws ihw =>
    intro h
    have hw := h w (List.mem_cons_self w ws)
    cases ws with
    | nil =>
      show pySplitAux (joinSp [w]) [] = [w]
      have hj : joinSp [w] = w ++ [] := by simp [joinSp]
      rw [hj, pySplitAux_word_prefix w [] [] hw.2]
      simp [pySplitAux, hw.1]
    | cons w2 ws2 =>
      show pySplitAux (joinSp (w :: w2 :: ws2)) [] = w :: w2 :: ws2
      have hj : joinSp (w :: w2 :: ws2) = w ++ ' ' :: joinSp (w2 :: ws2) := rfl
      rw [hj, pySplitAux_word_prefix w _ [] hw.2]
      have hsp : isPyWs ' ' = true := rfl
      rw [show pySplitAux (' ' :: joinSp (w2 :: ws2)) (w.reverse ++ []) =
          (w.reverse ++ []).reverse :: pySplitAux (joinSp (w2 :: ws2)) [] by
        simp [pySplitAux, hsp, hw.1]]
      show (w.reverse ++ []).reverse :: pySplit (joinSp (w2 :: ws2)) = w :: w2 :: ws2
      rw [ihw (fun x hx => h x (List.mem_cons_of_mem _ hx))]
      simp

theorem pySplit_short_title (out : String) (k : Nat) :
    pySplit (short_title_of out k) = (pySplit (firstLineOf (pyStrip out.data))).take k := by
  unfold short_title_of
  apply pySplit_joinSp
  intro w hw
  exact pySplit_words _ w (List.mem_of_mem_take hw)

theorem short_title_words_le (out : String) (k : Nat) :
    (pySplit (short_title_of out k)).length ≤ k := by
  rw [pySplit_short_title]
  exact List.length_take_le k _

/-! Theorems settling claim C10 about get_pdf_title_from_content. -/

/-- Claim C10 (counterexample): a reply whose second line contains the
phrase "please provide" is not replaced by the fallback title: the check
runs on the processed first line only, so the title "Good Title" is
returned. -/
theorem c10_counterexample :
    pyIn ("please provide").data (pyLower ("Good Title\nplease provide more text").data) =
      true ∧
    get_pdf_title_from_content (fun _ => Except.ok ("Good Title\nplease provide more text"))
      ("doc") 8 1000 = "Good Title" ∧
    ("Good Title" : String) ≠ "Untitled Document" := by
  refine ⟨rfl, rfl, by decide⟩

/-- Characterization of get_pdf_title_from_content when the collaborator
raises. -/
theorem title_of_error (llm : String → Except LLMErr String) (full_text : String)
    (mw cs : Nat) (e : LLMErr) (h : llm (title_prompt full_text mw cs) = Except.error e) :
    get_pdf_title_from_content llm full_text mw cs = "Untitled Document" := by
  unfold get_pdf_title_from_content
  rw [h]

/-- Characterization of get_pdf_title_from_content on a collaborator
reply. -/
theorem title_of_ok (llm : String → Except LLMErr String) (full_text : String)
    (mw cs : Nat) (out : String) (h : llm (title_prompt full_text mw cs) = Except.ok out) :
    get_pdf_title_from_content llm full_text mw cs =
      if ((short_title_of out mw).isEmpty ||
          pyIn ("please provide").data (pyLower (short_title_of out mw))) then
        "Untitled Document"
      else String.mk (short_title_of out mw) := by
  unfold get_pdf_title_from_content
  rw [h]

/-- Claim C10 (amended): get_pdf_title_from_content never raises and
returns a non-empty title of at most eight words; it returns the fallback
title on a collaborator exception, and when the processed candidate (the
first line of the stripped reply, truncated to eight words) is empty or
contains "please provide" after lowercasing — the check does not apply to
the rest of the reply. -/
theorem c10_amended (llm : String → Except LLMErr String) (full_text : String) :
    get_pdf_title_from_content llm full_text 8 1000 ≠ "" ∧
    (pySplit (get_pdf_title_from_content llm full_text 8 1000).data).length ≤ 8 ∧
    (∀ e, llm (title_prompt full_text 8 1000) = Except.error e →
      get_pdf_title_from_content llm full_text 8 1000 = "Untitled Document") ∧
    (∀ out, llm (title_prompt full_text 8 1000) = Except.ok out →
      (short_title_of out 8).isEmpty = true →
      get_pdf_title_from_content llm full_text 8 1000 = "Untitled Document") ∧
    (∀ out, llm (title_prompt full_text 8 1000) = Except.ok out →
      pyIn ("please provide").data (pyLower (short_title_of out 8)) = true →
      get_pdf_title_from_content llm full_text 8 1000 = "Untitled Document") := by
  cases hl : llm (title_prompt full_text 8 1000) with
  | error e =>
    rw [title_of_error llm full_text 8 1000 e hl]
    exact ⟨by decide, by decide, fun e2 h2 => rfl,
      fun out hout h2 => Except.noConfusion hout, fun out hout h2 => Except.noConfusion hout⟩
  | ok out =>
    rw [title_of_ok llm full_text 8 1000 out hl]
    by_cases hcond : ((short_title_of out 8).isEmpty ||
        pyIn ("please provide").data (pyLower (short_title_of out 8)))
    · rw [if_pos hcond]
      exact ⟨by decide, by decide, fun e2 h2 => Except.noConfusion h2,
        fun o ho h2 => rfl, fun o ho h2 => rfl⟩
    · have hcond2 : ((short_title_of out 8).isEmpty ||
          pyIn ("please provide").data (pyLower (short_title_of out 8))) = false := by
        simpa using hcond
      rw [if_neg hcond]
      have hemp : (short_title_of out 8).isEmpty = false :=
        (Bool.or_eq_false_iff.mp hcond2).1
      have hplease : pyIn ("please provide").data (pyLower (short_title_of out 8)) = false :=
        (Bool.or_eq_false_iff.mp hcond2).2
      refine ⟨?_, ?_, fun e2 h2 => Except.noConfusion h2, fun o ho h2 => ?_, fun o ho h2 => ?_⟩
      · intro hempty
        have hdata : short_title_of out 8 = [] := congrArg String.data hempty
        rw [hdata] at hemp
        exact Bool.noConfusion hemp
      · show (pySplit (String.mk (short_title_of out 8)).data).length ≤ 8
        exact short_title_words_le out 8
      · have hoo : o = out := Except.ok.inj ho.symm
        rw [hoo] at h2
        rw [h2] at hemp
        exact Bool.noConfusion hemp
      · have hoo : o = out := Except.ok.inj ho.symm
        rw [hoo] at h2
        rw [h2] at hplease
        exact Bool.noConfusion hplease

/-- Witness for the amended C10 at a failing collaborator. -/
theorem c10_amended_witness :
    get_pdf_title_from_content (fun _ => Except.error LLMErr.timeout) ("x") 8 1000 =
      "Untitled Document" :=
  (c10_amended (fun _ => Except.error LLMErr.timeout) ("x")).2.2.1 LLMErr.timeout rfl

end BubbleMap

